import Mathlib

/-
  Verification of the Santa-delivery core: stop registry, delivery state
  machine and per-frame animation driver, embedded from the application
  source (App component, geminiService) together with the parts of the
  JavaScript number semantics (NaN / signed infinities over an exact real
  carrier; -0 is identified with 0) that the animation driver exercises.
-/

namespace SantaTracker

/-- A JavaScript number: a finite value (carried exactly as a real),
a signed infinity (`inf true` is positive infinity), or NaN. -/
inductive JSNum where
  | fin : ℝ → JSNum
  | inf : Bool → JSNum
  | nan : JSNum

noncomputable instance : DecidableEq JSNum := Classical.decEq _

namespace JSNum

/-- JavaScript `isNaN`. -/
def jsIsNaN : JSNum → Bool
  | .nan => true
  | _ => false

/-- JavaScript `isFinite`. -/
def jsIsFiniteB : JSNum → Bool
  | .fin _ => true
  | _ => false

/-- JavaScript addition on doubles. -/
noncomputable def jsAdd : JSNum → JSNum → JSNum
  | .nan, _ => .nan
  | _, .nan => .nan
  | .fin x, .fin y => .fin (x + y)
  | .fin _, .inf s => .inf s
  | .inf s, .fin _ => .inf s
  | .inf s, .inf t => if s = t then .inf s else .nan

/-- JavaScript subtraction on doubles. -/
noncomputable def jsSub : JSNum → JSNum → JSNum
  | .nan, _ => .nan
  | _, .nan => .nan
  | .fin x, .fin y => .fin (x - y)
  | .fin _, .inf s => .inf (!s)
  | .inf s, .fin _ => .inf s
  | .inf s, .inf t => if s = t then .nan else .inf s

/-- JavaScript multiplication on doubles (zero times an infinity is NaN). -/
noncomputable def jsMul : JSNum → JSNum → JSNum
  | .nan, _ => .nan
  | _, .nan => .nan
  | .fin x, .fin y => .fin (x * y)
  | .fin x, .inf s => if x = 0 then .nan else if 0 < x then .inf s else .inf (!s)
  | .inf s, .fin y => if y = 0 then .nan else if 0 < y then .inf s else .inf (!s)
  | .inf s, .inf t => .inf (s == t)

/-- JavaScript division on doubles (division by zero gives a signed
infinity, zero over zero gives NaN; the zero divisor is treated as +0). -/
noncomputable def jsDiv : JSNum → JSNum → JSNum
  | .nan, _ => .nan
  | _, .nan => .nan
  | .fin x, .fin y =>
      if y = 0 then (if x = 0 then .nan else if 0 < x then .inf true else .inf false)
      else .fin (x / y)
  | .fin _, .inf _ => .fin 0
  | .inf s, .fin y => if y = 0 then .inf s else if 0 < y then .inf s else .inf (!s)
  | .inf _, .inf _ => .nan

/-- JavaScript `Math.sqrt` (NaN on negative inputs and on negative infinity). -/
noncomputable def jsSqrt : JSNum → JSNum
  | .nan => .nan
  | .inf s => if s then .inf true else .nan
  | .fin x => if x < 0 then .nan else .fin (Real.sqrt x)

/-- JavaScript `<=` as a proposition (false whenever either side is NaN). -/
def jsLe : JSNum → JSNum → Prop
  | .nan, _ => False
  | _, .nan => False
  | .fin x, .fin y => x ≤ y
  | .fin _, .inf s => s = true
  | .inf s, .fin _ => s = false
  | .inf s, .inf t => s = false ∨ t = true

/-- JavaScript `<` as a proposition (false whenever either side is NaN). -/
def jsLt : JSNum → JSNum → Prop
  | .nan, _ => False
  | _, .nan => False
  | .fin x, .fin y => x < y
  | .fin _, .inf s => s = true
  | .inf s, .fin _ => s = false
  | .inf s, .inf t => s = false ∧ t = true

noncomputable instance (a b : JSNum) : Decidable (jsLe a b) := by
  cases a <;> cases b <;> simp only [jsLe] <;> infer_instance

noncomputable instance (a b : JSNum) : Decidable (jsLt a b) := by
  cases a <;> cases b <;> simp only [jsLt] <;> infer_instance

theorem jsIsNaN_eq_false_of_jsLe {a b : JSNum} (h : jsLe a b) : jsIsNaN a = false := by
  cases a <;> cases b <;> simp_all [jsLe, jsIsNaN]

theorem jsIsNaN_eq_false_of_jsLt {a b : JSNum} (h : jsLt a b) : jsIsNaN a = false := by
  cases a <;> cases b <;> simp_all [jsLt, jsIsNaN]

end JSNum

open JSNum

/-- A coordinate pair in degree space (types.ts `Coordinates`). -/
structure Coordinates where
  lat : JSNum
  lng : JSNum

/-- A delivery stop (types.ts `Stop`). -/
structure Stop where
  id : String
  name : String
  present : String
  coordinates : Coordinates
  isDelivered : Bool
  isNext : Bool

/-- Santa's motion state (types.ts `SantaState`). -/
structure SantaState where
  currentPosition : Coordinates
  targetStopId : Option String
  isPlaying : Bool
  speed : JSNum
  isDelivering : Bool

/-- The delivery run phase (types.ts `GameStatus`). -/
inductive GameStatus where
  | PLANNING
  | DELIVERING
  | FINISHED
deriving DecidableEq

/-- The starting coordinate (constants.ts `NORTH_POLE`). -/
def NORTH_POLE : Coordinates := ⟨.fin 84, .fin (-40)⟩

/-- The initial Santa motion state (the `useState` initializer for `santa`,
reproduced verbatim by `handleReset`). -/
def initialSanta : SantaState :=
  { currentPosition := NORTH_POLE
    targetStopId := none
    isPlaying := false
    speed := .fin 1
    isDelivering := false }

/-- The whole mutable state of the App component: React state hooks plus
the mutable refs the animation loop uses (`lastTimeRef`,
`lastArrivalStopIdRef`, `requestRef`).  `rafQueued` records whether a next
animation frame is scheduled; `arrivalChimes` is the trace of stop ids for
which the arrival side effects (arrival chime + pending confirmation)
fired, appended exactly where `playArrivalChime` is called. -/
structure World where
  stops : List Stop
  santa : SantaState
  status : GameStatus
  loading : Bool
  currentMessage : String
  pendingDeliveryStop : Option Stop
  isGeneratingImage : Bool
  deliveryImage : Option String
  completedDeliveryStop : Option Stop
  locationInput : String
  presentInput : String
  lastTime : Option JSNum
  lastArrivalStopId : Option String
  rafQueued : Bool
  arrivalChimes : List String

/-- The initial state of the component, from its `useState` initializers. -/
def initialWorld : World :=
  { stops := []
    santa := initialSanta
    status := .PLANNING
    loading := false
    currentMessage := "Waiting for instructions at the North Pole..."
    pendingDeliveryStop := none
    isGeneratingImage := false
    deliveryImage := none
    completedDeliveryStop := none
    locationInput := ""
    presentInput := ""
    lastTime := none
    lastArrivalStopId := none
    rafQueued := false
    arrivalChimes := [] }

/-- The geocoding result delivered by `geminiService.geocodeLocation` on
success. -/
structure GeocodeResult where
  lat : JSNum
  lng : JSNum
  formattedName : String

/-- The JSON object parsed from the model response inside
`geocodeLocation`; `none` in `lat`/`lng` models a field that is absent or
not a number (the `typeof === number` check fails on it). -/
structure GeocodeData where
  found : Bool
  lat : Option JSNum
  lng : Option JSNum
  formattedName : String

/-- geminiService.ts `geocodeLocation`, lines 32-45: validation of the
parsed response.  The `Option GeocodeData` argument is the parsed JSON of
the remote response; `none` models a thrown error, which the `catch`
converts to `null`.  A result is returned only when `found` holds and both
coordinates are present, numeric and finite. -/
def geocodeLocation : Option GeocodeData → Option GeocodeResult
  | none => none
  | some data =>
      match data.lat, data.lng with
      | some la, some ln =>
          if data.found && jsIsFiniteB la && jsIsFiniteB ln then
            some ⟨la, ln, data.formattedName⟩
          else none
      | _, _ => none

/-- App `handleAddStop` (lines 57-81).  `resp` is the geocoding response
(parsed JSON, `none` for a thrown request); `newId` stands for the
`Math.random()`-generated fresh id.  The handler returns early when either
input field is empty (JavaScript falsiness of the empty string). -/
def handleAddStop (resp : Option GeocodeData) (newId : String) (w : World) : World :=
  if w.locationInput = "" ∨ w.presentInput = "" then w
  else
    match geocodeLocation resp with
    | some result =>
        { w with
            stops := w.stops ++
              [{ id := newId
                 name := result.formattedName
                 present := w.presentInput
                 coordinates := ⟨result.lat, result.lng⟩
                 isDelivered := false
                 isNext := false }]
            locationInput := ""
            presentInput := ""
            currentMessage := "Added " ++ result.formattedName ++ " to the list!"
            loading := false }
    | none =>
        { w with
            currentMessage :=
              "Could not find location \"" ++ w.locationInput ++
                "\". Try \"City, Country\" format."
            loading := false }

/-- The reorder step of App `handleOptimize` (lines 89-91): map each id to
the first stop carrying it and drop the ids that match no stop
(`.map(find).filter(defined)`). -/
def reorderStops (optimizedIds : List String) (stops : List Stop) : List Stop :=
  optimizedIds.filterMap (fun id => stops.find? (fun s => s.id == id))

/-- App `handleOptimize` (lines 83-96); `optimizedIds` is the id sequence
returned by `optimizeRoute`. -/
def handleOptimize (optimizedIds : List String) (w : World) : World :=
  { w with
      stops := reorderStops optimizedIds w.stops
      loading := false
      currentMessage := "Route optimized for maximum efficiency!" }

/-- App `handleStartDelivery` (lines 98-113). -/
def handleStartDelivery (w : World) : World :=
  if w.stops.length = 0 then w
  else
    { w with
        status := .DELIVERING
        lastArrivalStopId := none
        santa := { w.santa with
                     isPlaying := true
                     targetStopId := (w.stops.head?).map (fun s => s.id)
                     isDelivering := false }
        currentMessage := "Santa is taking off!"
        pendingDeliveryStop := none
        deliveryImage := none }

/-- The start-run intent as the presentation layer exposes it: the start
button is rendered only while `status === GameStatus.PLANNING`
(App line 494), so the handler can only fire from the planning phase. -/
def startRunIntent (w : World) : World :=
  if w.status = .PLANNING then handleStartDelivery w else w

/-- App `handleReset` (lines 115-129). -/
def handleReset (w : World) : World :=
  { w with
      status := .PLANNING
      stops := w.stops.map (fun s => { s with isDelivered := false, isNext := false })
      santa := { currentPosition := NORTH_POLE
                 targetStopId := none
                 isPlaying := false
                 speed := .fin 1
                 isDelivering := false }
      pendingDeliveryStop := none
      deliveryImage := none
      lastArrivalStopId := none
      currentMessage := "Back to the drawing board!" }

/-- JavaScript `Array.prototype.findIndex` on the stop list (-1 when the
id matches no stop). -/
def jsFindIndex (stops : List Stop) (cid : String) : Int :=
  match stops.findIdx? (fun s => s.id == cid) with
  | some n => (n : Int)
  | none => -1

/-- App `proceedToNextStop` (lines 132-145).  The guard
`currentIndex < stops.length - 1` is evaluated over JavaScript numbers,
modelled as integers. -/
def proceedToNextStop (currentStopId : String) (w : World) : World :=
  let currentIndex : Int := jsFindIndex w.stops currentStopId
  if currentIndex < (w.stops.length : Int) - 1 then
    match w.stops.get? (currentIndex + 1).toNat with
    | some nextStop =>
        { w with
            lastArrivalStopId := none
            santa := { w.santa with
                         isPlaying := true
                         targetStopId := some nextStop.id
                         isDelivering := false }
            currentMessage := "En route to " ++ nextStop.name ++ "..." }
    | none => w
  else
    { w with
        status := .FINISHED
        currentMessage := "All presents delivered! Merry Christmas!"
        santa := { w.santa with isDelivering := false } }

/-- The `setStops` update inside `executeDeliverySequence` (line 156):
mark every stop carrying the delivered stop's id as delivered. -/
def markDelivered (stopId : String) (stops : List Stop) : List Stop :=
  stops.map (fun s => if s.id == stopId then { s with isDelivered := true } else s)

/-- The synchronous prefix of App `executeDeliverySequence` (lines
148-156): visual flags, sparkle sound, and marking the stop delivered,
all before the image request is awaited. -/
def deliverySequenceStart (stop : Stop) (w : World) : World :=
  { w with
      santa := { w.santa with isDelivering := true }
      isGeneratingImage := true
      currentMessage := "Capturing delivery magic at " ++ stop.name ++ "..."
      stops := markDelivered stop.id w.stops }

/-- The success continuation of `executeDeliverySequence` (lines 163-169):
the generated image is shown and the run waits for the modal to be
dismissed.  `msg` is the generated arrival message. -/
def deliveryShowImage (stop : Stop) (url msg : String) (w : World) : World :=
  { w with
      isGeneratingImage := false
      deliveryImage := some url
      completedDeliveryStop := some stop
      currentMessage := msg }

/-- The failure continuation of `executeDeliverySequence` (lines 170-177):
no image, the arrival message is set and after the fixed delay the run
advances past the stop. -/
def deliveryFallbackAdvance (stop : Stop) (msg : String) (w : World) : World :=
  proceedToNextStop stop.id { w with isGeneratingImage := false, currentMessage := msg }

/-- App `handleCloseDeliveryModal` (lines 180-186). -/
def handleCloseDeliveryModal (w : World) : World :=
  let cleared := { w with deliveryImage := none, completedDeliveryStop := none }
  match w.santa.targetStopId with
  | some tid => proceedToNextStop tid cleared
  | none => cleared

/-- App `handleConfirmDelivery` (lines 188-194): clear the pending
confirmation and start the delivery sequence for that stop. -/
def handleConfirmDelivery (w : World) : World :=
  match w.pendingDeliveryStop with
  | some stop => deliverySequenceStart stop { w with pendingDeliveryStop := none }
  | none => w

/-- App `handleSkipStop` (lines 196-200): the message is assigned after
`proceedToNextStop` runs. -/
def handleSkipStop (stopId : String) (w : World) : World :=
  { proceedToNextStop stopId { w with pendingDeliveryStop := none } with
      currentMessage := "Skipping this stop..." }

/-- App `handleCancelDelivery` (lines 202-207). -/
def handleCancelDelivery (w : World) : World :=
  { w with
      pendingDeliveryStop := none
      currentMessage := "Delivery paused. Waiting for instructions..." }

/-- The part of the `stateRef` snapshot that `animate` destructures and
uses (line 215; the destructured `pendingDeliveryStop` is unused).  A
frame may read a snapshot older than the committed state, which is why it
is a separate argument of `animate`. -/
structure Snapshot where
  santa : SantaState
  stops : List Stop

/-- The up-to-date snapshot (the `useEffect` at lines 52-54 keeps
`stateRef` in sync with the committed state). -/
def snapOf (w : World) : Snapshot := ⟨w.santa, w.stops⟩

/-- The Euclidean distance in degree space computed by `animate`
(lines 223-225). -/
noncomputable def frameDistance (pos target : Coordinates) : JSNum :=
  jsSqrt (jsAdd (jsMul (jsSub target.lat pos.lat) (jsSub target.lat pos.lat))
                 (jsMul (jsSub target.lng pos.lng) (jsSub target.lng pos.lng)))

/-- The per-frame step magnitude computed by `animate` (lines 232-233):
`12 * speed` degrees per second times `deltaTime / 1000` seconds. -/
noncomputable def frameStep (speed deltaTime : JSNum) : JSNum :=
  jsMul (jsMul (.fin 12) speed) (jsDiv deltaTime (.fin 1000))

/-- The arrival update of `animate` (lines 239-251): record the stop in
the arrival guard, snap the position exactly onto the target coordinates,
stop the animation, play the arrival chime (traced in `arrivalChimes`)
and open the pending delivery confirmation. -/
def arrivalWorld (targetStop : Stop) (w : World) : World :=
  { w with
      lastArrivalStopId := some targetStop.id
      santa := { w.santa with
                   currentPosition := targetStop.coordinates
                   isPlaying := false }
      arrivalChimes := w.arrivalChimes ++ [targetStop.id]
      pendingDeliveryStop := some targetStop
      currentMessage :=
        "Arrived at " ++ targetStop.name ++ "! Waiting for confirmation..." }

/-- The body of the `animate` callback once a previous frame time exists
(lines 214-269).  The result is `none` exactly on the early `return`
taken when the computed distance is NaN (line 228), which exits before
the ref bookkeeping at lines 271-272. -/
noncomputable def animateBody (snap : Snapshot) (deltaTime : JSNum) (w : World) :
    Option World :=
  if snap.santa.isPlaying then
    match snap.santa.targetStopId with
    | some targetStopId =>
        match snap.stops.find? (fun s => s.id == targetStopId) with
        | some targetStop =>
            if jsIsNaN targetStop.coordinates.lat || jsIsNaN targetStop.coordinates.lng then
              some w
            else
              let dLat := jsSub targetStop.coordinates.lat snap.santa.currentPosition.lat
              let dLng := jsSub targetStop.coordinates.lng snap.santa.currentPosition.lng
              let dist := jsSqrt (jsAdd (jsMul dLat dLat) (jsMul dLng dLng))
              if jsIsNaN dist then none
              else
                let degreesPerSecond := jsMul (.fin 12) snap.santa.speed
                let step := jsMul degreesPerSecond (jsDiv deltaTime (.fin 1000))
                if jsLe dist step ∨ jsLt dist (.fin 0.005) then
                  if w.lastArrivalStopId ≠ some targetStop.id then
                    some (arrivalWorld targetStop w)
                  else some w
                else
                  let ratio := jsDiv step dist
                  if jsIsFiniteB ratio then
                    some { w with
                             santa := { w.santa with
                                          currentPosition :=
                                            ⟨jsAdd w.santa.currentPosition.lat (jsMul dLat ratio),
                                             jsAdd w.santa.currentPosition.lng (jsMul dLng ratio)⟩ } }
                  else some w
        | none => some w
    | none => some w
  else some w

/-- One invocation of the `animate` frame callback (lines 210-273).  On
the first frame after `lastTime` was cleared it only records the frame
time; otherwise it runs `animateBody` on the elapsed time.  The tail
(lines 271-272) stores the frame time and schedules the next frame; the
early `return` on a NaN distance skips both, leaving the loop undriven. -/
noncomputable def animate (snap : Snapshot) (time : JSNum) (w : World) : World :=
  match w.lastTime with
  | none => { w with lastTime := some time, rafQueued := true }
  | some last =>
      match animateBody snap (jsSub time last) w with
      | some w1 => { w1 with lastTime := some time, rafQueued := true }
      | none => { w with rafQueued := false }

/-- The `useEffect` at lines 276-284: when `isPlaying` turns on it seeds
`lastTimeRef` with the current clock and schedules the first frame; its
cleanup cancels the scheduled frame when `isPlaying` turns off. -/
def startLoop (now : JSNum) (w : World) : World :=
  if w.santa.isPlaying then { w with lastTime := some now, rafQueued := true }
  else { w with rafQueued := false }

/-- The operations that drive the component's state: the user intents and
service continuations, the frame callback, and the play-state effect.
Parameters stand for the data each asynchronous boundary delivers. -/
inductive Op where
  | setInputs (loc pres : String)
  | addStop (resp : Option GeocodeData) (newId : String)
  | optimize (ids : List String)
  | startRun
  | reset
  | confirmDelivery
  | skipStop (sid : String)
  | cancelDelivery
  | closeModal
  | deliveryStart (stop : Stop)
  | deliveryShowImage (stop : Stop) (url msg : String)
  | deliveryFallbackAdvance (stop : Stop) (msg : String)
  | startLoop (t : JSNum)
  | frame (t : JSNum)

/-- Apply one operation to the committed state; frames read the fresh
snapshot, as the sync effect guarantees between renders. -/
noncomputable def applyOp : Op → World → World
  | .setInputs loc pres, w => { w with locationInput := loc, presentInput := pres }
  | .addStop resp newId, w => handleAddStop resp newId w
  | .optimize ids, w => handleOptimize ids w
  | .startRun, w => handleStartDelivery w
  | .reset, w => handleReset w
  | .confirmDelivery, w => handleConfirmDelivery w
  | .skipStop sid, w => handleSkipStop sid w
  | .cancelDelivery, w => handleCancelDelivery w
  | .closeModal, w => handleCloseDeliveryModal w
  | .deliveryStart stop, w => deliverySequenceStart stop w
  | .deliveryShowImage stop url msg, w => deliveryShowImage stop url msg w
  | .deliveryFallbackAdvance stop msg, w => deliveryFallbackAdvance stop msg w
  | .startLoop t, w => startLoop t w
  | .frame t, w => animate (snapOf w) t w

/-- The states the component can reach from its initial render under any
sequence of operations. -/
inductive Reachable : World → Prop
  | init : Reachable initialWorld
  | step {w : World} (op : Op) : Reachable w → Reachable (applyOp op w)

/-- The arrival-guard invariant: while Santa is moving, the arrival guard
never already records the current target, so the arrival side effects are
armed (the guard is cleared whenever a new target is assigned). -/
def GuardInv (w : World) : Prop :=
  w.santa.isPlaying = true →
    ∀ tid, w.santa.targetStopId = some tid → w.lastArrivalStopId ≠ some tid

theorem guardInv_initial : GuardInv initialWorld := by
  intro hp
  simp [initialWorld, initialSanta] at hp

theorem proceedToNextStop_guardInv (cid : String) (w : World) (h : GuardInv w) :
    GuardInv (proceedToNextStop cid w) := by
  unfold proceedToNextStop
  dsimp only
  split
  · split
    · intro _ tid htid
      simp
    · exact h
  · intro hp tid htid
    exact h hp tid htid

theorem animateBody_guardInv (snap : Snapshot) (dt : JSNum) (w w1 : World)
    (h : GuardInv w) (hw1 : animateBody snap dt w = some w1) : GuardInv w1 := by
  unfold animateBody at hw1
  split at hw1
  · split at hw1
    · split at hw1
      · split at hw1
        · injection hw1 with h1
          exact h1 ▸ h
        · dsimp only at hw1
          split at hw1
          · exact absurd hw1 (by simp)
          · split at hw1
            · split at hw1
              · injection hw1 with h1
                intro hp
                rw [← h1] at hp
                simp [arrivalWorld] at hp
              · injection hw1 with h1
                exact h1 ▸ h
            · split at hw1
              · injection hw1 with h1
                intro hp tid htid
                rw [← h1] at hp htid ⊢
                exact h hp tid htid
              · injection hw1 with h1
                exact h1 ▸ h
      · injection hw1 with h1
        exact h1 ▸ h
    · injection hw1 with h1
      exact h1 ▸ h
  · injection hw1 with h1
    exact h1 ▸ h

theorem animate_guardInv (snap : Snapshot) (t : JSNum) (w : World) (h : GuardInv w) :
    GuardInv (animate snap t w) := by
  unfold animate
  split
  · intro hp tid htid
    exact h hp tid htid
  · rename_i last _
    rcases hb : animateBody snap (jsSub t last) w with _ | w1
    · intro hp tid htid
      exact h hp tid htid
    · intro hp tid htid
      exact animateBody_guardInv snap (jsSub t last) w w1 h hb hp tid htid

theorem handleAddStop_guardInv (resp : Option GeocodeData) (newId : String) (w : World)
    (h : GuardInv w) : GuardInv (handleAddStop resp newId w) := by
  unfold handleAddStop
  split
  · exact h
  · split
    · intro hp tid htid
      exact h hp tid htid
    · intro hp tid htid
      exact h hp tid htid

theorem handleStartDelivery_guardInv (w : World) (h : GuardInv w) :
    GuardInv (handleStartDelivery w) := by
  unfold handleStartDelivery
  split
  · exact h
  · intro _ tid _
    simp

theorem handleConfirmDelivery_guardInv (w : World) (h : GuardInv w) :
    GuardInv (handleConfirmDelivery w) := by
  unfold handleConfirmDelivery
  split
  · intro hp tid htid
    exact h hp tid htid
  · exact h

theorem reachable_guardInv {w : World} (h : Reachable w) : GuardInv w := by
  induction h with
  | init => exact guardInv_initial
  | step op _ ih =>
      cases op with
      | setInputs loc pres =>
          intro hp tid htid
          exact ih hp tid htid
      | addStop resp newId =>
          exact handleAddStop_guardInv resp newId _ ih
      | optimize ids =>
          intro hp tid htid
          exact ih hp tid htid
      | startRun =>
          exact handleStartDelivery_guardInv _ ih
      | reset =>
          intro hp
          exact absurd hp Bool.false_ne_true
      | confirmDelivery =>
          exact handleConfirmDelivery_guardInv _ ih
      | skipStop sid =>
          exact proceedToNextStop_guardInv sid _ (fun hq t ht => ih hq t ht)
      | cancelDelivery =>
          intro hp tid htid
          exact ih hp tid htid
      | closeModal =>
          show GuardInv (handleCloseDeliveryModal _)
          unfold handleCloseDeliveryModal
          split
          · exact proceedToNextStop_guardInv _ _ (fun hq t ht => ih hq t ht)
          · intro hp tid htid
            exact ih hp tid htid
      | deliveryStart stop =>
          intro hp tid htid
          exact ih hp tid htid
      | deliveryShowImage stop url msg =>
          intro hp tid htid
          exact ih hp tid htid
      | deliveryFallbackAdvance stop msg =>
          exact proceedToNextStop_guardInv _ _ (fun hq t ht => ih hq t ht)
      | startLoop t =>
          show GuardInv (startLoop t _)
          unfold startLoop
          split
          · intro hp tid htid
            exact ih hp tid htid
          · intro hp tid htid
            exact ih hp tid htid
      | frame t =>
          exact animate_guardInv _ t _ ih

theorem animateBody_arrival (snap : Snapshot) (dt : JSNum) (w : World)
    (tid : String) (targetStop : Stop)
    (hplay : snap.santa.isPlaying = true)
    (htid : snap.santa.targetStopId = some tid)
    (hfind : snap.stops.find? (fun s => s.id == tid) = some targetStop)
    (hlat : jsIsNaN targetStop.coordinates.lat = false)
    (hlng : jsIsNaN targetStop.coordinates.lng = false)
    (harr : jsLe (frameDistance snap.santa.currentPosition targetStop.coordinates)
                 (frameStep snap.santa.speed dt)
          ∨ jsLt (frameDistance snap.santa.currentPosition targetStop.coordinates)
                 (.fin 0.005))
    (hguard : w.lastArrivalStopId ≠ some targetStop.id) :
    animateBody snap dt w = some (arrivalWorld targetStop w) := by
  have hdist : jsIsNaN (frameDistance snap.santa.currentPosition targetStop.coordinates)
      = false := by
    rcases harr with h | h
    · exact jsIsNaN_eq_false_of_jsLe h
    · exact jsIsNaN_eq_false_of_jsLt h
  rw [frameDistance] at harr hdist
  rw [frameStep] at harr
  unfold animateBody
  rw [if_pos hplay, htid]
  dsimp only
  rw [hfind]
  dsimp only
  rw [if_neg (by simp [hlat, hlng] : ¬((jsIsNaN targetStop.coordinates.lat ||
        jsIsNaN targetStop.coordinates.lng) = true))]
  rw [if_neg (by simp [hdist])]
  rw [if_pos harr, if_pos hguard]

/-- C1: in every reachable state, an animation frame whose snapshot is
playing toward a found target stop with non-NaN coordinates, and whose
Euclidean degree-space distance `d` to the target satisfies
`d <= step` (with `step = 12 * speed * deltaTime` seconds) or
`d < 0.005`, assigns the target stop's coordinates to Santa's position
exactly (no interpolation) and turns `isPlaying` off. -/
theorem frame_arrival_snaps_position_and_stops
    (w : World) (t t0 : JSNum) (tid : String) (targetStop : Stop)
    (hr : Reachable w)
    (hlt : w.lastTime = some t0)
    (hplay : w.santa.isPlaying = true)
    (htid : w.santa.targetStopId = some tid)
    (hfind : w.stops.find? (fun s => s.id == tid) = some targetStop)
    (hlat : jsIsNaN targetStop.coordinates.lat = false)
    (hlng : jsIsNaN targetStop.coordinates.lng = false)
    (harr : jsLe (frameDistance w.santa.currentPosition targetStop.coordinates)
                 (frameStep w.santa.speed (jsSub t t0))
          ∨ jsLt (frameDistance w.santa.currentPosition targetStop.coordinates)
                 (.fin 0.005)) :
    (animate (snapOf w) t w).santa.currentPosition = targetStop.coordinates ∧
    (animate (snapOf w) t w).santa.isPlaying = false := by
  have hts : targetStop.id = tid := by
    have h := List.find?_some hfind
    simpa using h
  have hguard : w.lastArrivalStopId ≠ some targetStop.id := by
    rw [hts]
    exact reachable_guardInv hr hplay tid htid
  have hb := animateBody_arrival (snapOf w) (jsSub t t0) w tid targetStop hplay htid
    hfind hlat hlng harr hguard
  unfold animate
  rw [hlt]
  dsimp only
  rw [hb]
  exact ⟨rfl, rfl⟩

/-- A concrete run: type the form inputs, add one stop located exactly at
the starting coordinate, start the delivery run, and let the play effect
seed the frame clock. -/
noncomputable def exampleRunWorld : World :=
  applyOp (.startLoop (.fin 0))
    (applyOp .startRun
      (applyOp (.addStop (some ⟨true, some (.fin 84), some (.fin (-40)), "North Pole City"⟩)
          "stopA")
        (applyOp (.setInputs "North Pole City" "Sled") initialWorld)))

/-- The stop the example run heads for. -/
def exampleStop : Stop :=
  ⟨"stopA", "North Pole City", "Sled", ⟨.fin 84, .fin (-40)⟩, false, false⟩

theorem exampleRunWorld_reachable : Reachable exampleRunWorld :=
  .step (.startLoop (.fin 0))
    (.step .startRun
      (.step (.addStop (some ⟨true, some (.fin 84), some (.fin (-40)), "North Pole City"⟩)
          "stopA")
        (.step (.setInputs "North Pole City" "Sled") .init)))

theorem frame_arrival_snaps_position_and_stops_witness :
    (animate (snapOf exampleRunWorld) (.fin 1000) exampleRunWorld).santa.currentPosition
        = exampleStop.coordinates ∧
    (animate (snapOf exampleRunWorld) (.fin 1000) exampleRunWorld).santa.isPlaying = false := by
  refine frame_arrival_snaps_position_and_stops exampleRunWorld (.fin 1000) (.fin 0)
    "stopA" exampleStop exampleRunWorld_reachable rfl rfl rfl rfl rfl rfl ?_
  left
  show jsLe (frameDistance ⟨.fin 84, .fin (-40)⟩ ⟨.fin 84, .fin (-40)⟩)
    (frameStep (.fin 1) (jsSub (.fin 1000) (.fin 0)))
  norm_num [frameDistance, frameStep, jsSub, jsMul, jsAdd, jsDiv, jsSqrt, jsLe]

theorem animateBody_chimes (snap : Snapshot) (dt : JSNum) (w : World) (X : String)
    (htarget : snap.santa.targetStopId = some X) :
    ∀ w1, animateBody snap dt w = some w1 →
      (w1.arrivalChimes = w.arrivalChimes ∧ w1.lastArrivalStopId = w.lastArrivalStopId)
      ∨ (w1.arrivalChimes = w.arrivalChimes ++ [X] ∧ w.lastArrivalStopId ≠ some X ∧
          w1.lastArrivalStopId = some X) := by
  intro w1 hw1
  unfold animateBody at hw1
  split at hw1
  · split at hw1
    · rename_i tid heq
      rw [htarget] at heq
      injection heq with heq
      subst heq
      split at hw1
      · rename_i targetStop hfind
        have hts : targetStop.id = X := by
          have h := List.find?_some hfind
          simpa using h
        split at hw1
        · injection hw1 with h1
          exact Or.inl (h1 ▸ ⟨rfl, rfl⟩)
        · dsimp only at hw1
          split at hw1
          · exact absurd hw1 (by simp)
          · split at hw1
            · split at hw1
              · rename_i hguard
                injection hw1 with h1
                refine Or.inr ?_
                rw [← h1, ← hts]
                exact ⟨by simp [arrivalWorld], hguard, by simp [arrivalWorld]⟩
              · injection hw1 with h1
                exact Or.inl (h1 ▸ ⟨rfl, rfl⟩)
            · split at hw1
              · injection hw1 with h1
                exact Or.inl (h1 ▸ ⟨rfl, rfl⟩)
              · injection hw1 with h1
                exact Or.inl (h1 ▸ ⟨rfl, rfl⟩)
      · injection hw1 with h1
        exact Or.inl (h1 ▸ ⟨rfl, rfl⟩)
    · injection hw1 with h1
      exact Or.inl (h1 ▸ ⟨rfl, rfl⟩)
  · injection hw1 with h1
    exact Or.inl (h1 ▸ ⟨rfl, rfl⟩)

theorem animate_chimes (snap : Snapshot) (t : JSNum) (w : World) (X : String)
    (htarget : snap.santa.targetStopId = some X) :
    ((animate snap t w).arrivalChimes = w.arrivalChimes ∧
      (animate snap t w).lastArrivalStopId = w.lastArrivalStopId)
    ∨ ((animate snap t w).arrivalChimes = w.arrivalChimes ++ [X] ∧
        w.lastArrivalStopId ≠ some X ∧ (animate snap t w).lastArrivalStopId = some X) := by
  unfold animate
  split
  · exact Or.inl ⟨rfl, rfl⟩
  · rename_i last _
    rcases hb : animateBody snap (jsSub t last) w with _ | w1
    · exact Or.inl ⟨rfl, rfl⟩
    · rcases animateBody_chimes snap (jsSub t last) w X htarget w1 hb with ⟨h1, h2⟩ | ⟨h1, h2, h3⟩
      · exact Or.inl ⟨h1, h2⟩
      · exact Or.inr ⟨h1, h2, h3⟩

/-- A run of consecutive animation frames: the snapshot each frame reads
is paired with its clock time, so frames may legitimately read snapshots
older than the committed state. -/
noncomputable def runFrames (frames : List (Snapshot × JSNum)) (w : World) : World :=
  frames.foldl (fun w f => animate f.1 f.2 w) w

theorem chimes_budget (X : String) :
    ∀ (frames : List (Snapshot × JSNum)) (w : World),
      (∀ f ∈ frames, f.1.santa.targetStopId = some X) →
      (runFrames frames w).arrivalChimes.count X ≤
        w.arrivalChimes.count X + (if w.lastArrivalStopId = some X then 0 else 1) := by
  intro frames
  induction frames with
  | nil =>
      intro w _
      split <;> simp [runFrames]
  | cons f rest ih =>
      intro w hall
      have hf : f.1.santa.targetStopId = some X := hall f (by simp)
      have hrest : ∀ g ∈ rest, g.1.santa.targetStopId = some X :=
        fun g hg => hall g (by simp [hg])
      have hstep : runFrames (f :: rest) w = runFrames rest (animate f.1 f.2 w) := rfl
      rw [hstep]
      rcases animate_chimes f.1 f.2 w X hf with ⟨h1, h2⟩ | ⟨h1, h2, h3⟩
      · calc (runFrames rest (animate f.1 f.2 w)).arrivalChimes.count X
            ≤ (animate f.1 f.2 w).arrivalChimes.count X +
                (if (animate f.1 f.2 w).lastArrivalStopId = some X then 0 else 1) :=
              ih (animate f.1 f.2 w) hrest
          _ = w.arrivalChimes.count X +
                (if w.lastArrivalStopId = some X then 0 else 1) := by rw [h1, h2]
      · calc (runFrames rest (animate f.1 f.2 w)).arrivalChimes.count X
            ≤ (animate f.1 f.2 w).arrivalChimes.count X +
                (if (animate f.1 f.2 w).lastArrivalStopId = some X then 0 else 1) :=
              ih (animate f.1 f.2 w) hrest
          _ = w.arrivalChimes.count X + 1 := by
              rw [h1, h3, List.count_append]
              simp
          _ ≤ w.arrivalChimes.count X +
                (if w.lastArrivalStopId = some X then 0 else 1) := by
              rw [if_neg h2]

/-- C2: over any run of consecutive animation frames whose snapshots all
target stop `X` — including stale snapshots read before a state update
propagates — the arrival side effects (the arrival chime together with
the pending delivery confirmation, traced in `arrivalChimes` at the point
where `playArrivalChime` fires) are triggered for `X` at most one more
time than before the run: the `lastArrivalStopIdRef` guard makes them
fire at most once per stop per run. -/
theorem arrival_side_effects_at_most_once (X : String)
    (frames : List (Snapshot × JSNum)) (w : World)
    (hrun : ∀ f ∈ frames, f.1.santa.targetStopId = some X) :
    (runFrames frames w).arrivalChimes.count X ≤ w.arrivalChimes.count X + 1 := by
  refine le_trans (chimes_budget X frames w hrun) ?_
  have : (if w.lastArrivalStopId = some X then 0 else 1) ≤ 1 := by
    split <;> omega
  omega

theorem arrival_side_effects_at_most_once_witness :
    (runFrames [(snapOf exampleRunWorld, .fin 1000), (snapOf exampleRunWorld, .fin 2000)]
        exampleRunWorld).arrivalChimes.count "stopA" ≤
      exampleRunWorld.arrivalChimes.count "stopA" + 1 := by
  refine arrival_side_effects_at_most_once "stopA"
    [(snapOf exampleRunWorld, .fin 1000), (snapOf exampleRunWorld, .fin 2000)]
    exampleRunWorld ?_
  intro f hf
  simp only [List.mem_cons, List.not_mem_nil, or_false] at hf
  rcases hf with h | h <;> rw [h] <;> rfl

theorem jsFindIndex_ge (stops : List Stop) (cid : String) : -1 ≤ jsFindIndex stops cid := by
  unfold jsFindIndex
  split
  · omega
  · omega

theorem jsFindIndex_lt (stops : List Stop) (cid : String) :
    jsFindIndex stops cid < (stops.length : Int) := by
  unfold jsFindIndex
  split
  · rename_i n hn
    have := (List.findIdx?_eq_some_iff_findIdx_eq.mp hn).1
    omega
  · rcases stops with _ | ⟨a, l⟩
    · simp
    · simp only [List.length_cons]
      omega

/-- C3: `proceedToNextStop` always terminates in exactly one of two
outcomes: either the new target is the id of a stop present in the
registry — the element right after the completed stop's index — with
`isPlaying` turned on and the phase unchanged, or the phase becomes
FINISHED with motion still stopped and the target untouched.  The
hypothesis `isPlaying = false` holds at every call site (the advance runs
only after an arrival stopped the motion). -/
theorem advance_terminates_validly (w : World) (cid : String)
    (hp : w.santa.isPlaying = false) :
    (∃ nextStop, nextStop ∈ w.stops ∧
        w.stops.get? (jsFindIndex w.stops cid + 1).toNat = some nextStop ∧
        (proceedToNextStop cid w).santa.targetStopId = some nextStop.id ∧
        (proceedToNextStop cid w).santa.isPlaying = true ∧
        (proceedToNextStop cid w).status = w.status ∧
        (proceedToNextStop cid w).lastArrivalStopId = none)
    ∨ ((proceedToNextStop cid w).status = GameStatus.FINISHED ∧
        (proceedToNextStop cid w).santa.isPlaying = false ∧
        (proceedToNextStop cid w).santa.targetStopId = w.santa.targetStopId ∧
        (proceedToNextStop cid w).stops = w.stops) := by
  unfold proceedToNextStop
  dsimp only
  by_cases hlt2 : jsFindIndex w.stops cid < (w.stops.length : Int) - 1
  · rw [if_pos hlt2]
    have hge := jsFindIndex_ge w.stops cid
    have hbound : (jsFindIndex w.stops cid + 1).toNat < w.stops.length := by omega
    obtain ⟨nextStop, hget⟩ :
        ∃ s, w.stops.get? (jsFindIndex w.stops cid + 1).toNat = some s := by
      rw [List.get?_eq_get hbound]
      exact ⟨_, rfl⟩
    rw [hget]
    exact Or.inl ⟨nextStop, List.get?_mem hget, rfl, rfl, rfl, rfl, rfl⟩
  · rw [if_neg hlt2]
    exact Or.inr ⟨rfl, hp, rfl, rfl⟩

theorem advance_terminates_validly_witness :
    (∃ nextStop, nextStop ∈ initialWorld.stops ∧
        initialWorld.stops.get? (jsFindIndex initialWorld.stops "anyStop" + 1).toNat
          = some nextStop ∧
        (proceedToNextStop "anyStop" initialWorld).santa.targetStopId = some nextStop.id ∧
        (proceedToNextStop "anyStop" initialWorld).santa.isPlaying = true ∧
        (proceedToNextStop "anyStop" initialWorld).status = initialWorld.status ∧
        (proceedToNextStop "anyStop" initialWorld).lastArrivalStopId = none)
    ∨ ((proceedToNextStop "anyStop" initialWorld).status = GameStatus.FINISHED ∧
        (proceedToNextStop "anyStop" initialWorld).santa.isPlaying = false ∧
        (proceedToNextStop "anyStop" initialWorld).santa.targetStopId
          = initialWorld.santa.targetStopId ∧
        (proceedToNextStop "anyStop" initialWorld).stops = initialWorld.stops) :=
  advance_terminates_validly initialWorld "anyStop" rfl

/-- C10: calling `proceedToNextStop` with an id that matches no stop of a
non-empty registry does not finish the run: `findIndex` yields -1, so the
registry's first stop becomes the new target, the motion restarts and the
arrival guard is cleared — the unknown id behaves as if it preceded the
first stop. -/
theorem advance_unknown_id_targets_first_stop (w : World) (cid : String)
    (hne : w.stops ≠ [])
    (hmiss : ∀ s ∈ w.stops, (s.id == cid) = false) :
    (proceedToNextStop cid w).santa.targetStopId = w.stops.head?.map (fun s => s.id) ∧
    (proceedToNextStop cid w).santa.isPlaying = true ∧
    (proceedToNextStop cid w).status = w.status ∧
    (proceedToNextStop cid w).lastArrivalStopId = none := by
  obtain ⟨a, l, hal⟩ := List.exists_cons_of_ne_nil hne
  have hidx : jsFindIndex w.stops cid = -1 := by
    unfold jsFindIndex
    rw [List.findIdx?_eq_none_iff.mpr hmiss]
  have hlen : 0 < w.stops.length := by
    rw [hal]
    simp
  unfold proceedToNextStop
  dsimp only
  rw [hidx]
  rw [if_pos (by omega : (-1 : Int) < (w.stops.length : Int) - 1)]
  have h0 : ((-1 : Int) + 1).toNat = 0 := rfl
  rw [h0, hal]
  rw [List.get?_cons_zero]
  exact ⟨rfl, rfl, rfl, rfl⟩

/-- A single-stop registry used to instantiate the positional theorems. -/
def oneStopWorld : World := { initialWorld with stops := [exampleStop] }

theorem advance_unknown_id_targets_first_stop_witness :
    (proceedToNextStop "unknownId" oneStopWorld).santa.targetStopId
        = oneStopWorld.stops.head?.map (fun s => s.id) ∧
    (proceedToNextStop "unknownId" oneStopWorld).santa.isPlaying = true ∧
    (proceedToNextStop "unknownId" oneStopWorld).status = oneStopWorld.status ∧
    (proceedToNextStop "unknownId" oneStopWorld).lastArrivalStopId = none := by
  refine advance_unknown_id_targets_first_stop oneStopWorld "unknownId" (by simp [oneStopWorld]) ?_
  intro s hs
  simp only [oneStopWorld, List.mem_singleton] at hs
  rw [hs]
  rfl

/-- C7: from any state, `handleReset` re-enters the planning phase,
clears every stop's delivered flag while retaining the list itself (ids,
names, presents, coordinates, order, and hence length), restores the
initial idle motion state at the North Pole (not playing, no target,
speed 1, not delivering), and clears the pending confirmation, the
delivery image and the arrival guard. -/
theorem reset_restores_planning_state (w : World) :
    (handleReset w).status = GameStatus.PLANNING ∧
    (handleReset w).stops.map (fun s => s.isDelivered) = w.stops.map (fun _ => false) ∧
    (handleReset w).stops.map (fun s => (s.id, s.name, s.present, s.coordinates))
      = w.stops.map (fun s => (s.id, s.name, s.present, s.coordinates)) ∧
    (handleReset w).stops.length = w.stops.length ∧
    (handleReset w).santa = initialSanta ∧
    (handleReset w).pendingDeliveryStop = none ∧
    (handleReset w).deliveryImage = none ∧
    (handleReset w).lastArrivalStopId = none := by
  refine ⟨rfl, ?_, ?_, ?_, rfl, rfl, rfl, rfl⟩
  · simp only [handleReset, List.map_map]
    rfl
  · simp only [handleReset, List.map_map]
    rfl
  · simp only [handleReset, List.length_map]

/-- C9: the start-run intent fires only from the PLANNING phase (the
button exists only there) and only with a non-empty registry (the handler
returns early otherwise); when it fires it enters DELIVERING, targets the
registry's first stop, starts the motion and clears the arrival guard and
the pending confirmation. -/
theorem start_run_valid_only_from_planning :
    (∀ w : World, w.status ≠ GameStatus.PLANNING → startRunIntent w = w) ∧
    (∀ w : World, w.stops = [] → startRunIntent w = w) ∧
    (∀ w : World, w.status = GameStatus.PLANNING → w.stops ≠ [] →
      (startRunIntent w).status = GameStatus.DELIVERING ∧
      (startRunIntent w).santa.targetStopId = w.stops.head?.map (fun s => s.id) ∧
      (startRunIntent w).santa.isPlaying = true ∧
      (startRunIntent w).lastArrivalStopId = none ∧
      (startRunIntent w).pendingDeliveryStop = none) := by
  refine ⟨?_, ?_, ?_⟩
  · intro w h
    unfold startRunIntent
    rw [if_neg h]
  · intro w h
    unfold startRunIntent handleStartDelivery
    split
    · rw [if_pos (by rw [h]; rfl)]
    · rfl
  · intro w h1 h2
    unfold startRunIntent handleStartDelivery
    rw [if_pos h1, if_neg (by simpa using h2)]
    exact ⟨rfl, rfl, rfl, rfl, rfl⟩

theorem start_run_valid_only_from_planning_witness :
    (startRunIntent oneStopWorld).status = GameStatus.DELIVERING ∧
    (startRunIntent oneStopWorld).santa.targetStopId
      = oneStopWorld.stops.head?.map (fun s => s.id) ∧
    (startRunIntent oneStopWorld).santa.isPlaying = true ∧
    (startRunIntent oneStopWorld).lastArrivalStopId = none ∧
    (startRunIntent oneStopWorld).pendingDeliveryStop = none :=
  start_run_valid_only_from_planning.2.2 oneStopWorld rfl (by simp [oneStopWorld])

theorem geocodeLocation_finite (resp : Option GeocodeData) (r : GeocodeResult)
    (h : geocodeLocation resp = some r) :
    jsIsFiniteB r.lat = true ∧ jsIsFiniteB r.lng = true := by
  rcases resp with _ | data
  · exact Option.noConfusion h
  · obtain ⟨f, la, ln, nm⟩ := data
    rcases la with _ | la
    · exact Option.noConfusion h
    · rcases ln with _ | ln
      · exact Option.noConfusion h
      · unfold geocodeLocation at h
        dsimp only at h
        split at h
        · rename_i hcond
          injection h with h1
          subst h1
          simp only [Bool.and_eq_true] at hcond
          exact ⟨hcond.1.2, hcond.2⟩
        · exact Option.noConfusion h

/-- C8: when geocoding yields `null` — including every response whose
coordinates are missing, not numbers, or not finite — `handleAddStop`
leaves the Stop Registry untouched (it is the same list) and only sets an
informational message (and drops the loading flag); a stop with a
non-finite coordinate is never added by any response. -/
theorem add_stop_failure_is_noop :
    (∀ (resp : Option GeocodeData) (newId : String) (w : World),
        w.locationInput ≠ "" → w.presentInput ≠ "" →
        geocodeLocation resp = none →
        handleAddStop resp newId w =
          { w with
              currentMessage :=
                "Could not find location \"" ++ w.locationInput ++
                  "\". Try \"City, Country\" format."
              loading := false }) ∧
    (∀ (data : GeocodeData) (r : GeocodeResult),
        geocodeLocation (some data) = some r →
        jsIsFiniteB r.lat = true ∧ jsIsFiniteB r.lng = true) ∧
    (∀ data : GeocodeData, data.lat = none ∨ data.lng = none →
        geocodeLocation (some data) = none) ∧
    (∀ (resp : Option GeocodeData) (newId : String) (w : World) (s : Stop),
        s ∈ (handleAddStop resp newId w).stops →
        s ∈ w.stops ∨
          (jsIsFiniteB s.coordinates.lat = true ∧ jsIsFiniteB s.coordinates.lng = true)) := by
  refine ⟨?_, ?_, ?_, ?_⟩
  · intro resp newId w h1 h2 hnone
    unfold handleAddStop
    rw [if_neg (not_or.mpr ⟨h1, h2⟩), hnone]
  · intro data r h
    exact geocodeLocation_finite (some data) r h
  · intro data hd
    obtain ⟨f, la, ln, nm⟩ := data
    rcases hd with h | h
    · dsimp only at h
      subst h
      rfl
    · dsimp only at h
      subst h
      rcases la with _ | v <;> rfl
  · intro resp newId w s hs
    unfold handleAddStop at hs
    split at hs
    · exact Or.inl hs
    · rcases hg : geocodeLocation resp with _ | result
      · rw [hg] at hs
        exact Or.inl hs
      · rw [hg] at hs
        dsimp only at hs
        rw [List.mem_append] at hs
        rcases hs with hs | hs
        · exact Or.inl hs
        · rw [List.mem_singleton] at hs
          subst hs
          exact Or.inr (geocodeLocation_finite resp result hg)

/-- The world in which the user has typed a destination and present. -/
def typedInputsWorld : World :=
  { initialWorld with locationInput := "Atlantis", presentInput := "Toy Boat" }

theorem add_stop_failure_is_noop_witness :
    handleAddStop none "id1" typedInputsWorld =
      { typedInputsWorld with
          currentMessage :=
            "Could not find location \"" ++ typedInputsWorld.locationInput ++
              "\". Try \"City, Country\" format."
          loading := false } :=
  add_stop_failure_is_noop.1 none "id1" typedInputsWorld
    (by simp [typedInputsWorld]) (by simp [typedInputsWorld]) rfl

theorem animateBody_shape (snap : Snapshot) (dt : JSNum) (w : World) :
    ∀ w1, animateBody snap dt w = some w1 →
      w1 = w ∨ (∃ stop, w1 = arrivalWorld stop w) ∨
        (∃ pos, w1 = { w with santa := { w.santa with currentPosition := pos } }) := by
  intro w1 hw1
  unfold animateBody at hw1
  split at hw1
  · split at hw1
    · split at hw1
      · split at hw1
        · injection hw1 with h1
          exact Or.inl h1.symm
        · dsimp only at hw1
          split at hw1
          · exact absurd hw1 (by simp)
          · split at hw1
            · split at hw1
              · injection hw1 with h1
                exact Or.inr (Or.inl ⟨_, h1.symm⟩)
              · injection hw1 with h1
                exact Or.inl h1.symm
            · split at hw1
              · injection hw1 with h1
                exact Or.inr (Or.inr ⟨_, h1.symm⟩)
              · injection hw1 with h1
                exact Or.inl h1.symm
      · injection hw1 with h1
        exact Or.inl h1.symm
    · injection hw1 with h1
      exact Or.inl h1.symm
  · injection hw1 with h1
    exact Or.inl h1.symm

theorem animate_stops (snap : Snapshot) (t : JSNum) (w : World) :
    (animate snap t w).stops = w.stops := by
  unfold animate
  split
  · rfl
  · rename_i last _
    rcases hb : animateBody snap (jsSub t last) w with _ | w1
    · rfl
    · rcases animateBody_shape snap (jsSub t last) w w1 hb with h | ⟨stop, h⟩ | ⟨pos, h⟩ <;>
        subst h <;> rfl

theorem proceedToNextStop_stops (cid : String) (w : World) :
    (proceedToNextStop cid w).stops = w.stops := by
  unfold proceedToNextStop
  dsimp only
  split
  · split <;> rfl
  · rfl

theorem reorderStops_subset (ids : List String) (stops : List Stop) :
    ∀ s1 ∈ reorderStops ids stops, s1 ∈ stops := by
  intro s1 h
  rw [reorderStops, List.mem_filterMap] at h
  obtain ⟨id, _, hfind⟩ := h
  exact List.mem_of_find?_eq_some hfind

theorem nodup_delivered_unique (stops : List Stop)
    (hnd : (stops.map (fun s => s.id)).Nodup)
    {id : String} (hex : ∃ s ∈ stops, s.id = id ∧ s.isDelivered = true)
    {s1 : Stop} (hmem : s1 ∈ stops) (hid : s1.id = id) : s1.isDelivered = true := by
  obtain ⟨s, hs, hsid, hdel⟩ := hex
  have heq : s1 = s :=
    List.inj_on_of_nodup_map hnd hmem hs (by rw [hid, hsid])
  rw [heq]
  exact hdel

theorem markDelivered_keeps_delivered (sid : String) (stops : List Stop)
    (hnd : (stops.map (fun s => s.id)).Nodup)
    {id : String} (hex : ∃ s ∈ stops, s.id = id ∧ s.isDelivered = true) :
    ∀ s1 ∈ markDelivered sid stops, s1.id = id → s1.isDelivered = true := by
  intro s1 hmem hid
  rw [markDelivered, List.mem_map] at hmem
  obtain ⟨s0, hs0, hf⟩ := hmem
  by_cases h : (s0.id == sid) = true
  · rw [if_pos h] at hf
    rw [← hf]
  · rw [if_neg h] at hf
    subst hf
    exact nodup_delivered_unique stops hnd hex hs0 hid

/-- Which fresh-id side condition an operation carries: a stop added by
`handleAddStop` gets a `Math.random()` id that is fresh for the registry
(the spec's "fresh unique id"). -/
def opFresh : Op → World → Prop
  | .addStop _ newId, w => newId ∉ w.stops.map (fun s => s.id)
  | _, _ => True

theorem markDelivered_pairs (sid : String) (stops : List Stop) :
    (markDelivered sid stops).map (fun s => (s.id, s.isDelivered)) =
      stops.map (fun s => (s.id, if s.id == sid then true else s.isDelivered)) := by
  induction stops with
  | nil => rfl
  | cons a l ih =>
      simp only [markDelivered, List.map_cons] at ih ⊢
      refine congrArg₂ List.cons ?_ ih
      by_cases h : (a.id == sid) = true
      · simp [h]
      · simp [h]

theorem markDelivered_idem (sid : String) (stops : List Stop) :
    markDelivered sid (markDelivered sid stops) = markDelivered sid stops := by
  induction stops with
  | nil => rfl
  | cons a l ih =>
      simp only [markDelivered, List.map_cons] at ih ⊢
      refine congrArg₂ List.cons ?_ ih
      by_cases h : (a.id == sid) = true
      · simp [h]
      · simp [h]

/-- C4: the delivered flag of a stop only moves from false to true.
First conjunct: no operation other than `reset` ever takes a stop whose
flag is true back to false (ids are unique and fresh, as the data model
requires).  Second conjunct: `markDelivered` — the `setStops` update of
the confirmed-delivery sequence — sets exactly the confirmed id's flag to
true, leaves every other pair untouched, and is idempotent, so a
confirmed delivery flips the flag exactly once.  Third conjunct: skipping
a stop leaves the registry — and hence its delivered flag — unchanged. -/
theorem delivered_flag_lifecycle :
    (∀ (op : Op) (w : World), op ≠ Op.reset → opFresh op w →
      (w.stops.map (fun s => s.id)).Nodup →
      ∀ id, (∃ s ∈ w.stops, s.id = id ∧ s.isDelivered = true) →
        ∀ s1 ∈ (applyOp op w).stops, s1.id = id → s1.isDelivered = true) ∧
    (∀ (sid : String) (stops : List Stop),
      (markDelivered sid stops).map (fun s => (s.id, s.isDelivered)) =
        stops.map (fun s => (s.id, if s.id == sid then true else s.isDelivered)) ∧
      markDelivered sid (markDelivered sid stops) = markDelivered sid stops) ∧
    (∀ (sid : String) (w : World), (applyOp (.skipStop sid) w).stops = w.stops) := by
  refine ⟨?_, fun sid stops => ⟨markDelivered_pairs sid stops, markDelivered_idem sid stops⟩, ?_⟩
  · intro op w hne hfresh hnd id hex s1 hmem hid
    cases op with
    | setInputs loc pres =>
        exact nodup_delivered_unique w.stops hnd hex hmem hid
    | addStop resp newId =>
        simp only [applyOp] at hmem
        unfold handleAddStop at hmem
        split at hmem
        · exact nodup_delivered_unique w.stops hnd hex hmem hid
        · split at hmem
          · rw [List.mem_append] at hmem
            rcases hmem with hmem | hmem
            · exact nodup_delivered_unique w.stops hnd hex hmem hid
            · rw [List.mem_singleton] at hmem
              subst hmem
              exfalso
              apply hfresh
              rw [List.mem_map]
              obtain ⟨s, hs, hsid, _⟩ := hex
              exact ⟨s, hs, by rw [hsid, ← hid]⟩
          · exact nodup_delivered_unique w.stops hnd hex hmem hid
    | optimize ids =>
        exact nodup_delivered_unique w.stops hnd hex
          (reorderStops_subset ids w.stops s1 hmem) hid
    | startRun =>
        simp only [applyOp] at hmem
        unfold handleStartDelivery at hmem
        split at hmem <;> exact nodup_delivered_unique w.stops hnd hex hmem hid
    | reset => exact absurd rfl hne
    | confirmDelivery =>
        simp only [applyOp] at hmem
        unfold handleConfirmDelivery at hmem
        split at hmem
        · exact markDelivered_keeps_delivered _ w.stops hnd hex s1 hmem hid
        · exact nodup_delivered_unique w.stops hnd hex hmem hid
    | skipStop sid =>
        rw [show (applyOp (.skipStop sid) w).stops = w.stops from
          proceedToNextStop_stops sid { w with pendingDeliveryStop := none }] at hmem
        exact nodup_delivered_unique w.stops hnd hex hmem hid
    | cancelDelivery =>
        exact nodup_delivered_unique w.stops hnd hex hmem hid
    | closeModal =>
        simp only [applyOp] at hmem
        unfold handleCloseDeliveryModal at hmem
        split at hmem
        · rw [proceedToNextStop_stops] at hmem
          exact nodup_delivered_unique w.stops hnd hex hmem hid
        · exact nodup_delivered_unique w.stops hnd hex hmem hid
    | deliveryStart stop =>
        exact markDelivered_keeps_delivered _ w.stops hnd hex s1 hmem hid
    | deliveryShowImage stop url msg =>
        exact nodup_delivered_unique w.stops hnd hex hmem hid
    | deliveryFallbackAdvance stop msg =>
        rw [show (applyOp (.deliveryFallbackAdvance stop msg) w).stops = w.stops from
          proceedToNextStop_stops stop.id
            { w with isGeneratingImage := false, currentMessage := msg }] at hmem
        exact nodup_delivered_unique w.stops hnd hex hmem hid
    | startLoop t =>
        simp only [applyOp] at hmem
        unfold startLoop at hmem
        split at hmem <;> exact nodup_delivered_unique w.stops hnd hex hmem hid
    | frame t =>
        rw [show (applyOp (.frame t) w).stops = w.stops from animate_stops (snapOf w) t w]
          at hmem
        exact nodup_delivered_unique w.stops hnd hex hmem hid
  · intro sid w
    exact proceedToNextStop_stops sid { w with pendingDeliveryStop := none }

/-- A registry holding one already-delivered stop. -/
def deliveredStop : Stop :=
  ⟨"stopA", "North Pole City", "Sled", ⟨.fin 84, .fin (-40)⟩, true, false⟩

/-- A world whose single stop is already delivered. -/
def deliveredWorld : World := { initialWorld with stops := [deliveredStop] }

theorem delivered_flag_lifecycle_witness : deliveredStop.isDelivered = true :=
  delivered_flag_lifecycle.1 Op.cancelDelivery deliveredWorld
    (fun h => Op.noConfusion h) trivial (by simp [deliveredWorld, deliveredStop])
    "stopA" ⟨deliveredStop, by simp [deliveredWorld], rfl, rfl⟩
    deliveredStop (by simp [applyOp, handleCancelDelivery, deliveredWorld]) rfl

theorem find?_self_of_nodup (stops : List Stop)
    (hnd : (stops.map (fun s => s.id)).Nodup) :
    ∀ s ∈ stops, stops.find? (fun t => t.id == s.id) = some s := by
  induction stops with
  | nil =>
      intro s hs
      cases hs
  | cons a l ih =>
      intro s hs
      rw [List.map_cons, List.nodup_cons] at hnd
      obtain ⟨ha, hl⟩ := hnd
      rcases List.mem_cons.mp hs with h | h
      · subst h
        rw [List.find?_cons_of_pos]
        simp
      · have hne : (a.id == s.id) = false := by
          apply beq_eq_false_iff_ne.mpr
          intro hcontra
          apply ha
          rw [hcontra]
          exact List.mem_map.mpr ⟨s, h, rfl⟩
        have hnp : ¬((a.id == s.id) = true) := by simp [hne]
        rw [List.find?_cons_of_neg l hnp]
        exact ih hl s h

theorem filterMap_fixes_of_mem {α : Type} (f : α → Option α) :
    ∀ l : List α, (∀ a ∈ l, f a = some a) → l.filterMap f = l := by
  intro l
  induction l with
  | nil => intro _; rfl
  | cons a t ih =>
      intro h
      simp only [List.filterMap_cons, h a (List.mem_cons_self a t)]
      rw [ih (fun b hb => h b (List.mem_cons_of_mem a hb))]

theorem reorderStops_map_id (stops : List Stop)
    (hnd : (stops.map (fun s => s.id)).Nodup) :
    reorderStops (stops.map (fun s => s.id)) stops = stops := by
  unfold reorderStops
  rw [List.filterMap_map]
  exact filterMap_fixes_of_mem _ stops (find?_self_of_nodup stops hnd)

/-- A planning registry with two distinct stops. -/
def stopParis : Stop := ⟨"a", "Paris", "Ball", ⟨.fin 48, .fin 2⟩, false, false⟩

/-- The second of the two stops. -/
def stopTokyo : Stop := ⟨"b", "Tokyo", "Kite", ⟨.fin 35, .fin 139⟩, false, false⟩

/-- The world whose registry is the two stops above, in that order. -/
def twoStopsWorld : World := { initialWorld with stops := [stopParis, stopTokyo] }

/-- Counterexample for C6: the reorder step of `handleOptimize` applied
to an id sequence that misses an id yields a stop list whose id set is
not a permutation of the pre-call registry's id set — the stop missing
from the sequence is silently dropped. -/
theorem optimize_reorder_not_always_permutation :
    ¬ ((handleOptimize ["a"] twoStopsWorld).stops.map (fun s => s.id)).Perm
        (twoStopsWorld.stops.map (fun s => s.id)) := by
  intro h
  have hlen := h.length_eq
  have h1 : (handleOptimize ["a"] twoStopsWorld).stops.map (fun s => s.id) = ["a"] := rfl
  have h2 : twoStopsWorld.stops.map (fun s => s.id) = ["a", "b"] := rfl
  rw [h1, h2] at hlen
  simp at hlen

/-- C6 (amended): the reorder step of `handleOptimize` never errors and
only draws stops from the pre-call registry (unrecognized ids are
dropped); and — a sufficient condition, not a necessary one — the result
is a permutation of the pre-call registry whenever the returned id
sequence is a permutation of the registry's (duplicate-free) id
sequence.  An id sequence that misses or duplicates known ids can shrink
or repeat stops instead of permuting them. -/
theorem optimize_reorder_subset_and_conditional_permutation :
    (∀ (ids : List String) (w : World) (s1 : Stop),
        s1 ∈ (handleOptimize ids w).stops → s1 ∈ w.stops) ∧
    (∀ (ids : List String) (w : World),
        (w.stops.map (fun s => s.id)).Nodup →
        ids.Perm (w.stops.map (fun s => s.id)) →
        (handleOptimize ids w).stops.Perm w.stops) := by
  constructor
  · intro ids w s1 h
    exact reorderStops_subset ids w.stops s1 h
  · intro ids w hnd hperm
    show (reorderStops ids w.stops).Perm w.stops
    have h3 : (reorderStops ids w.stops).Perm
        (reorderStops (w.stops.map (fun s => s.id)) w.stops) :=
      List.Perm.filterMap _ hperm
    rw [reorderStops_map_id w.stops hnd] at h3
    exact h3

theorem optimize_reorder_subset_and_conditional_permutation_witness :
    (handleOptimize ["b", "a"] twoStopsWorld).stops.Perm twoStopsWorld.stops :=
  optimize_reorder_subset_and_conditional_permutation.2 ["b", "a"] twoStopsWorld
    (by simp [twoStopsWorld, stopParis, stopTokyo])
    (List.Perm.swap "a" "b" [])

theorem animateBody_move (snap : Snapshot) (dt : JSNum) (w : World)
    (tid : String) (targetStop : Stop)
    (hplay : snap.santa.isPlaying = true)
    (htid : snap.santa.targetStopId = some tid)
    (hfind : snap.stops.find? (fun s => s.id == tid) = some targetStop)
    (hlat : jsIsNaN targetStop.coordinates.lat = false)
    (hlng : jsIsNaN targetStop.coordinates.lng = false)
    (hdist : jsIsNaN (frameDistance snap.santa.currentPosition targetStop.coordinates)
        = false)
    (hnoarr : ¬(jsLe (frameDistance snap.santa.currentPosition targetStop.coordinates)
          (frameStep snap.santa.speed dt)
        ∨ jsLt (frameDistance snap.santa.currentPosition targetStop.coordinates)
          (.fin 0.005)))
    (hfinite : jsIsFiniteB (jsDiv (frameStep snap.santa.speed dt)
        (frameDistance snap.santa.currentPosition targetStop.coordinates)) = true) :
    animateBody snap dt w = some
      { w with santa := { w.santa with currentPosition :=
          ⟨jsAdd w.santa.currentPosition.lat
              (jsMul (jsSub targetStop.coordinates.lat snap.santa.currentPosition.lat)
                (jsDiv (frameStep snap.santa.speed dt)
                  (frameDistance snap.santa.currentPosition targetStop.coordinates))),
            jsAdd w.santa.currentPosition.lng
              (jsMul (jsSub targetStop.coordinates.lng snap.santa.currentPosition.lng)
                (jsDiv (frameStep snap.santa.speed dt)
                  (frameDistance snap.santa.currentPosition targetStop.coordinates)))⟩ } } := by
  rw [frameDistance] at hdist
  rw [frameDistance, frameStep] at hnoarr hfinite ⊢
  unfold animateBody
  rw [if_pos hplay, htid]
  dsimp only
  rw [hfind]
  dsimp only
  rw [if_neg (by simp [hlat, hlng] : ¬((jsIsNaN targetStop.coordinates.lat ||
        jsIsNaN targetStop.coordinates.lng) = true))]
  rw [if_neg (by simp [hdist])]
  rw [if_neg hnoarr, if_pos hfinite]

/-- A stop whose latitude is positive infinity: it passes the `isNaN`
guards of the animation driver. -/
def infStop : Stop := ⟨"inf1", "Edge", "Box", ⟨.inf true, .fin (-40)⟩, false, false⟩

/-- A delivering world heading for the infinite-latitude stop, one frame
into the loop. -/
def infTargetWorld : World :=
  { initialWorld with
      stops := [infStop]
      santa := { initialSanta with isPlaying := true, targetStopId := some "inf1" }
      lastTime := some (.fin 0) }

theorem frameStep_example :
    frameStep (.fin 1) (jsSub (.fin 1000) (.fin 0)) = JSNum.fin 12 := by
  norm_num [frameStep, jsSub, jsMul, jsDiv]

/-- Counterexample for C5: a frame whose target coordinate is non-finite
(positive infinity, hence not NaN) is not skipped — the motion state is
mutated, and Santa's latitude becomes NaN (infinity times the zero step
ratio), contradicting the claim that every non-finite coordinate or
distance skips the frame with no mutation. -/
theorem nonfinite_coordinate_frame_not_skipped :
    jsIsFiniteB infStop.coordinates.lat = false ∧
    infTargetWorld.santa.currentPosition.lat = JSNum.fin 84 ∧
    (animate (snapOf infTargetWorld) (.fin 1000) infTargetWorld).santa.currentPosition.lat
      = JSNum.nan := by
  refine ⟨rfl, rfl, ?_⟩
  have hmove := animateBody_move (snapOf infTargetWorld) (jsSub (.fin 1000) (.fin 0))
    infTargetWorld "inf1" infStop rfl rfl rfl rfl rfl
    rfl
    (by
      show ¬(jsLe (JSNum.inf true) (frameStep (.fin 1) (jsSub (.fin 1000) (.fin 0)))
        ∨ jsLt (JSNum.inf true) (.fin 0.005))
      rw [frameStep_example]
      simp [jsLe, jsLt])
    (by
      show jsIsFiniteB (jsDiv (frameStep (.fin 1) (jsSub (.fin 1000) (.fin 0)))
        (JSNum.inf true)) = true
      rw [frameStep_example]
      rfl)
  have hrw : animate (snapOf infTargetWorld) (.fin 1000) infTargetWorld
      = match animateBody (snapOf infTargetWorld) (jsSub (.fin 1000) (.fin 0))
            infTargetWorld with
        | some w1 => { w1 with lastTime := some (.fin 1000), rafQueued := true }
        | none => { infTargetWorld with rafQueued := false } := rfl
  rw [hrw, hmove]
  show jsAdd (JSNum.fin 84)
      (jsMul (JSNum.inf true)
        (jsDiv (frameStep (.fin 1) (jsSub (.fin 1000) (.fin 0))) (JSNum.inf true)))
    = JSNum.nan
  rw [frameStep_example]
  norm_num [jsDiv, jsMul, jsAdd]

/-- C5 (amended): the animation driver's degeneracy guards cover NaN, not
all non-finite values: a frame whose found target has a NaN coordinate is
skipped entirely apart from the frame-time bookkeeping (no motion
mutation, no arrival side effect, and the next frame stays scheduled),
and a frame whose computed distance is NaN mutates nothing but returns
before re-registering the frame callback, so the loop stops being driven;
infinite (non-NaN) coordinates are not guarded at all. -/
theorem nan_guards_skip_frame
    (snap : Snapshot) (t t0 : JSNum) (w : World) (tid : String) (targetStop : Stop)
    (hlt : w.lastTime = some t0)
    (hplay : snap.santa.isPlaying = true)
    (htid : snap.santa.targetStopId = some tid)
    (hfind : snap.stops.find? (fun s => s.id == tid) = some targetStop) :
    ((jsIsNaN targetStop.coordinates.lat || jsIsNaN targetStop.coordinates.lng) = true →
      animate snap t w = { w with lastTime := some t, rafQueued := true }) ∧
    (jsIsNaN targetStop.coordinates.lat = false →
      jsIsNaN targetStop.coordinates.lng = false →
      jsIsNaN (frameDistance snap.santa.currentPosition targetStop.coordinates) = true →
      animate snap t w = { w with rafQueued := false }) := by
  constructor
  · intro hnan
    have hbody : animateBody snap (jsSub t t0) w = some w := by
      unfold animateBody
      rw [if_pos hplay, htid]
      dsimp only
      rw [hfind]
      dsimp only
      rw [if_pos hnan]
    unfold animate
    rw [hlt]
    dsimp only
    rw [hbody]
  · intro hlat hlng hnan
    rw [frameDistance] at hnan
    have hbody : animateBody snap (jsSub t t0) w = none := by
      unfold animateBody
      rw [if_pos hplay, htid]
      dsimp only
      rw [hfind]
      dsimp only
      rw [if_neg (by simp [hlat, hlng] : ¬((jsIsNaN targetStop.coordinates.lat ||
            jsIsNaN targetStop.coordinates.lng) = true))]
      rw [if_pos hnan]
    unfold animate
    rw [hlt]
    dsimp only
    rw [hbody]

/-- A world playing toward a stop with a NaN latitude. -/
def nanStop : Stop := ⟨"nan1", "Nowhere", "Mist", ⟨.nan, .fin 0⟩, false, false⟩

/-- A delivering world heading for the NaN-latitude stop. -/
def nanTargetWorld : World :=
  { initialWorld with
      stops := [nanStop]
      santa := { initialSanta with isPlaying := true, targetStopId := some "nan1" }
      lastTime := some (.fin 0) }

theorem nan_guards_skip_frame_witness :
    animate (snapOf nanTargetWorld) (.fin 16) nanTargetWorld
      = { nanTargetWorld with lastTime := some (.fin 16), rafQueued := true } :=
  (nan_guards_skip_frame (snapOf nanTargetWorld) (.fin 16) (.fin 0) nanTargetWorld
    "nan1" nanStop rfl rfl rfl rfl).1 rfl

end SantaTracker
